import Mathlib

/-!
Verification of the negotiation core of the OMEGA car-sales backend.

The development shallowly embeds:
* `BusinessConstraintAgent.validate_final_offer` (the PolicyEngine),
* the `/negotiation` API handlers (`start_negotiation`,
  `send_negotiation_message`, `_handle_accept`, `_handle_counter_offer`),
* `NegotiationDatabase.add_history` and `get_active_session_by_user`.

Python numeric values are modelled as rationals (`ℚ`), dynamically typed
scalar values as the inductive `PyVal`, and dictionary fields as `Option`
fields of structures.  Text appended to `violations`, `warnings` and
`audit_trail` is abstracted to one inductive constructor per `append` site
of the source (the exact French/emoji formatting is irrelevant to the
properties, the tag identifies the source line).  External collaborators
(the LLM offer generator, the contract finalizer) are modelled as an
explicit environment of outcomes, mirroring §6 of the design document.
-/

namespace Omega

/-- A dynamically typed scalar as it may appear in the incoming JSON
payloads (`trade_in_year` can be an integer, a string, or missing). -/
inductive PyVal where
  | none
  | int (n : ℤ)
  | str (s : String)
deriving DecidableEq, Repr

/-- Python truthiness of a scalar: `None`, `0` and `""` are falsy. -/
def PyVal.truthy : PyVal → Bool
  | .none => false
  | .int n => n ≠ 0
  | .str s => s ≠ ""

/-- Conversion `int(v)`: succeeds on integers and on strings of digits, fails
(`ValueError`/`TypeError`) otherwise. -/
def PyVal.toIntOpt : PyVal → Option ℤ
  | .none => Option.none
  | .int n => some n
  | .str s => s.toInt?

/-- Lower-casing as `str.lower()` does on the alphabet this code base
uses: ASCII letters plus the accented capital of "Élevé". -/
def pyLowerChar (c : Char) : Char :=
  if c = 'É' then 'é' else c.toLower

def pyLower (s : String) : String :=
  String.mk (s.data.map pyLowerChar)

/-- A trade-in sub-dictionary of the user profile
(`trade_in_vehicle_details` / `trade_in`).  `year = Option.none` means the
key `'year'` is absent; `hasOtherKeys` records whether the dictionary has
further entries (for Python truthiness of the dictionary itself).  The
source's `isinstance(trade_in_info, dict)` guard always holds here because
the schema only ever stores dictionaries in these slots. -/
structure TradeInInfo where
  year : Option PyVal := Option.none
  hasOtherKeys : Bool := false
deriving DecidableEq, Repr

/-- Truthiness of the dictionary: non-empty. -/
def TradeInInfo.truthy (t : TradeInInfo) : Bool :=
  t.year.isSome || t.hasOtherKeys

/-- The `user_profile` dictionary as read by `validate_final_offer`.
A missing sub-dictionary is identified with the empty dictionary, which is
exactly how `.get(key, {})` treats it. -/
structure UserProfile where
  risk_level : Option String := Option.none
  trade_in_vehicle_details : TradeInInfo := {}
  trade_in : TradeInInfo := {}
deriving DecidableEq, Repr

/-- The `market_data` dictionary as read by `validate_final_offer`. -/
structure MarketData where
  average_price : Option ℚ := Option.none
  market_average_price : Option ℚ := Option.none
deriving DecidableEq, Repr

/-- Lookup `market_data.get('average_price', 0) or market_data.get('market_average_price', 0)`:
Python `or` takes the second operand when the first is falsy (absent → 0). -/
def MarketData.avg (m : MarketData) : ℚ :=
  let a := m.average_price.getD 0
  if a ≠ 0 then a else m.market_average_price.getD 0

/-- The negotiated-terms dictionary (`NegotiatedTerms.model_dump`) as read
by `validate_final_offer` and mutated by the accept flow. -/
structure NegotiatedDict where
  offer_price_mad : Option ℚ := Option.none
  discount_amount_mad : Option ℚ := Option.none
  trade_in_year : Option PyVal := Option.none
  payment_method : Option String := Option.none
  contract_id : Option String := Option.none
  pdf_reference : Option String := Option.none
deriving DecidableEq, Repr

/-- The argument of `validate_final_offer` (`offer_data`). -/
structure OfferInput where
  negotiated_terms : NegotiatedDict := {}
  user_profile : UserProfile := {}
  market_data : MarketData := {}
deriving DecidableEq, Repr

/-- One constructor per `violations.append` site of
`BusinessConstraintAgent.validate_final_offer`. -/
inductive Violation where
  | marginExceeded (pct : ℚ)
  | tradeInTooOld (year : ℤ)
  | tradeInFuture (year : ℤ)
  | highRiskFinancing
deriving DecidableEq, Repr

/-- One constructor per `warnings.append` site. -/
inductive Warning where
  | marketMissing
  | tradeInYearFormat (raw : PyVal)
  | priceUnusual (price : ℚ)
deriving DecidableEq, Repr

/-- One constructor per `audit_trail.append` site, carrying the data that
is interpolated into the source's message string. -/
inductive AuditLine where
  | marginCheck (discount market pct : ℚ)
  | marginViolation (pct : ℚ)
  | marginPass (pct : ℚ)
  | marginWarning
  | tradeInCheck (year : ℤ)
  | tradeInTooOld (year : ℤ)
  | tradeInFuture (year : ℤ)
  | tradeInPass (year : ℤ)
  | tradeInParseWarning (raw : PyVal)
  | tradeInInfo
  | riskCheckHigh (risk : String)
  | riskViolation (payment : String)
  | riskPass (payment : String)
  | riskPassLow (risk : String)
  | priceRangePass (price : ℚ)
  | priceRangeWarning (price : ℚ)
  | finalApproved
  | finalRejected (count : ℕ)
  | warningsSummary (ws : List Warning)
deriving DecidableEq, Repr

/-- Schema `BusinessValidation` (schemas/business.py): the PolicyEngine output. -/
structure BusinessValidation where
  is_approved : Bool
  violations : List Violation
  audit_trail : List AuditLine
  confidence_score : ℚ
deriving DecidableEq, Repr

/-- The trade-in year lookup of `validate_final_offer`: the negotiated
terms first, then (`if not trade_in_year`) the user profile's
`trade_in_vehicle_details or trade_in` dictionary's `'year'`. -/
def tradeInYearLookup (negotiated : NegotiatedDict) (user_profile : UserProfile) : PyVal :=
  let raw := negotiated.trade_in_year.getD PyVal.none
  if raw.truthy then raw
  else
    let trade_in_info :=
      if user_profile.trade_in_vehicle_details.truthy then
        user_profile.trade_in_vehicle_details
      else user_profile.trade_in
    trade_in_info.year.getD PyVal.none

/-- The three mutable lists of `validate_final_offer`
(`violations`, `audit_trail`, `warnings`), threaded through the rule
blocks in source order. -/
structure ValAcc where
  violations : List Violation
  audit_trail : List AuditLine
  warnings : List Warning
deriving DecidableEq, Repr

/-- RULE 1 of `validate_final_offer`: Discount Margin Check (max 15%). -/
def rule1Step (discount_amount market_avg_price : ℚ) (acc : ValAcc) : ValAcc :=
  if market_avg_price ≠ 0 ∧ 0 < market_avg_price then
    let discount_percentage := discount_amount / market_avg_price * 100
    if 15 < discount_percentage then
      { acc with
        violations := acc.violations ++ [Violation.marginExceeded discount_percentage]
        audit_trail := acc.audit_trail ++
          [AuditLine.marginCheck discount_amount market_avg_price discount_percentage,
           AuditLine.marginViolation discount_percentage] }
    else
      { acc with
        audit_trail := acc.audit_trail ++
          [AuditLine.marginCheck discount_amount market_avg_price discount_percentage,
           AuditLine.marginPass discount_percentage] }
  else
    { acc with
      audit_trail := acc.audit_trail ++ [AuditLine.marginWarning]
      warnings := acc.warnings ++ [Warning.marketMissing] }

/-- RULE 2 of `validate_final_offer`: Trade-in Year Check (must be
>= 2010; a future year beyond 2026 is also a violation; an unparsable
year is a warning; no trade-in is an informational line). -/
def rule2Step (trade_in_year : PyVal) (acc : ValAcc) : ValAcc :=
  if trade_in_year.truthy then
    match trade_in_year.toIntOpt with
    | some year_int =>
      if year_int < 2010 then
        { acc with
          violations := acc.violations ++ [Violation.tradeInTooOld year_int]
          audit_trail := acc.audit_trail ++
            [AuditLine.tradeInCheck year_int, AuditLine.tradeInTooOld year_int] }
      else if 2026 < year_int then
        { acc with
          violations := acc.violations ++ [Violation.tradeInFuture year_int]
          audit_trail := acc.audit_trail ++
            [AuditLine.tradeInCheck year_int, AuditLine.tradeInFuture year_int] }
      else
        { acc with
          audit_trail := acc.audit_trail ++
            [AuditLine.tradeInCheck year_int, AuditLine.tradeInPass year_int] }
    | Option.none =>
      { acc with
        audit_trail := acc.audit_trail ++ [AuditLine.tradeInParseWarning trade_in_year]
        warnings := acc.warnings ++ [Warning.tradeInYearFormat trade_in_year] }
  else
    { acc with audit_trail := acc.audit_trail ++ [AuditLine.tradeInInfo] }

/-- RULE 3 of `validate_final_offer`: Risk-Based Financing Check
(HIGH risk = CASH ONLY). -/
def rule3Step (risk_level payment_method : String) (acc : ValAcc) : ValAcc :=
  if risk_level = "high" ∨ risk_level = "élevé" then
    if payment_method ∈ ["financing", "financement", "credit", "crédit"] then
      { acc with
        violations := acc.violations ++ [Violation.highRiskFinancing]
        audit_trail := acc.audit_trail ++
          [AuditLine.riskCheckHigh risk_level, AuditLine.riskViolation payment_method] }
    else
      { acc with
        audit_trail := acc.audit_trail ++
          [AuditLine.riskCheckHigh risk_level, AuditLine.riskPass payment_method] }
  else
    { acc with audit_trail := acc.audit_trail ++ [AuditLine.riskPassLow risk_level] }

/-- RULE 4 of `validate_final_offer`: Currency Check (must be MAD);
note the whole block is guarded by `offer_price > 0` and appends nothing
otherwise. -/
def rule4Step (offer_price : ℚ) (acc : ValAcc) : ValAcc :=
  if 0 < offer_price then
    if 10000 ≤ offer_price ∧ offer_price ≤ 10000000 then
      { acc with audit_trail := acc.audit_trail ++ [AuditLine.priceRangePass offer_price] }
    else
      { acc with
        audit_trail := acc.audit_trail ++ [AuditLine.priceRangeWarning offer_price]
        warnings := acc.warnings ++ [Warning.priceUnusual offer_price] }
  else acc

/-- The tail of `validate_final_offer`: approval decision, confidence
score, and the summary audit lines. -/
def finalStep (acc : ValAcc) : BusinessValidation :=
  let is_approved := acc.violations.length = 0
  let confidence_score : ℚ := if is_approved then 1 else 0
  let audit_trail :=
    acc.audit_trail ++
    (if is_approved then [AuditLine.finalApproved]
     else [AuditLine.finalRejected acc.violations.length]) ++
    (if acc.warnings.isEmpty then [] else [AuditLine.warningsSummary acc.warnings])
  { is_approved := is_approved
    violations := acc.violations
    audit_trail := audit_trail
    confidence_score := confidence_score }

/-- Function `BusinessConstraintAgent.validate_final_offer`, translated block by
block: the scalar extraction, then the four rule blocks applied in
source order to the initially empty lists, then the approval tail. -/
def validate_final_offer (offer_data : OfferInput) : BusinessValidation :=
  let negotiated := offer_data.negotiated_terms
  let user_profile := offer_data.user_profile
  let market_data := offer_data.market_data
  let offer_price := negotiated.offer_price_mad.getD 0
  let discount_amount := negotiated.discount_amount_mad.getD 0
  let market_avg_price := market_data.avg
  let trade_in_year := tradeInYearLookup negotiated user_profile
  let payment_method := pyLower (negotiated.payment_method.getD "")
  let risk_level := pyLower (user_profile.risk_level.getD "")
  finalStep
    (rule4Step offer_price
      (rule3Step risk_level payment_method
        (rule2Step trade_in_year
          (rule1Step discount_amount market_avg_price ⟨[], [], []⟩))))

/-! ## The negotiation session state machine (api/negotiation.py) -/

/-- Session status strings (`negotiation_session.py`; `validating` is the
transient status written by `_handle_accept` before finalization). -/
inductive SessionStatus where
  | active
  | completed
  | rejected
  | expired
  | maxRoundsReached
  | error
  | validating
deriving DecidableEq, Repr

/-- Schema `NegotiationSession` as persisted by `negotiation_db` (the fields the
negotiation endpoints read or write; timestamps are not modelled).
At creation the source temporarily stores the raw initial context in
`current_offer_data` until the generated initial offer overwrites it; the
placeholder `{}` stands for that pre-generation value. -/
structure Session where
  session_id : String
  user_id : ℤ
  status : SessionStatus
  current_round : ℤ
  max_rounds : ℤ
  initial_user_profile : UserProfile
  initial_market_data : MarketData
  current_offer_data : NegotiatedDict
deriving DecidableEq, Repr

/-- Schema `NegotiationSessionCreate`. -/
structure SessionCreate where
  user_id : ℤ
  initial_user_profile : UserProfile
  initial_market_data : MarketData
  max_rounds : ℤ
deriving DecidableEq, Repr

/-- Function `NegotiationDatabase.create_session`: fresh session, `status="active"`,
`current_round=1`. -/
def create_session (d : SessionCreate) (sid : String) : Session :=
  { session_id := sid
    user_id := d.user_id
    status := .active
    current_round := 1
    max_rounds := d.max_rounds
    initial_user_profile := d.initial_user_profile
    initial_market_data := d.initial_market_data
    current_offer_data := {} }

/-- The structured counter-offer dictionary a client may send
(`message_data.counter_offer`). -/
structure CounterOffer where
  desired_price : Option ℚ := Option.none
  desired_monthly : Option ℚ := Option.none
deriving DecidableEq, Repr

/-- The `client_message` argument passed to
`NegotiationAgent.process_counter_offer`: either the client's own text
with their structured counter, or the synthetic text built by
`_handle_accept` from the policy violations
(`"L'offre précédente a été rejetée par le système. Violations: ..."`,
with `client_counter=None`). -/
inductive GenMessage where
  | client (text : String) (counter : Option CounterOffer)
  | policyRejection (violations : List Violation)
deriving DecidableEq, Repr

/-- A successfully parsed `NegotiatedTerms` payload from the generator. -/
structure GeneratedOffer where
  terms : NegotiatedDict
  marketing_message : String
deriving DecidableEq, Repr

/-- Outcome of one `process_counter_offer` call: a parsed offer, or an
exception (the call threw, or `_parse_negotiation_response` failed on an
unparseable payload). -/
inductive GenResult where
  | ok (offer : GeneratedOffer)
  | fail
deriving DecidableEq, Repr

/-- Outcome of `OfferStructuringAgent.structure_offer` (contract
finalization). -/
inductive StructResult where
  | ok (contract_id : String) (pdf_reference : String)
  | fail
deriving DecidableEq, Repr

/-- The external collaborators of one request, as a deterministic record
of outcomes (§6 of the design document: generation and finalization are
consumed capabilities). -/
structure Env where
  gen : GenMessage → GenResult
  genInitial : GenResult
  structureOffer : StructResult

/-- Field `NegotiationMessageRequest.action`. -/
inductive MsgAction where
  | counter
  | accept
  | reject
deriving DecidableEq, Repr

/-- Schema `NegotiationMessageRequest`. -/
structure MessageRequest where
  message : String
  counter_offer : Option CounterOffer := Option.none
  action : MsgAction := .counter
deriving DecidableEq, Repr

/-- The `agent_response` strings, one constructor per call site. -/
inductive AgentText where
  | marketing (msg : String)
  | rejectionAck
  | maxRoundsFinal
  | policyMaxRounds
  | policyRevision (msg : String)
  | contractReady (contract_id : String)
deriving DecidableEq, Repr

/-- Schema `NegotiationMessageResponse`. -/
structure MessageResponse where
  agent_response : AgentText
  revised_offer : Option NegotiatedDict
  round : ℤ
  remaining_rounds : ℤ
  status : SessionStatus
  session_id : String
deriving DecidableEq, Repr

/-- The error responses the negotiation endpoints raise
(`HTTPException`s).  `statusConflict` is the 400 `send_negotiation_message`
raises on a non-active session — that one reaches the caller as a 400
because `send_negotiation_message` re-raises `HTTPException`s unchanged.
`generationFailed` is the 500 raised at a failed generation call site and
`contractError` the re-raised contract exception.  `conflict` is the
`HTTPException(400, "User already has an active negotiation session: …")`
raised inside `start_negotiation`; `internal` models
`start_negotiation`'s blanket `except Exception` handler, which catches
every exception raised in its body — including that 400 conflict — and
re-raises it as `HTTPException(500, str(e))`, a 500 whose detail string
embeds the original error.  So the caller of `start_negotiation` only
ever sees `internal …` errors, never a bare 400. -/
inductive ApiError where
  | notFound
  | statusConflict (st : SessionStatus)
  | conflict (existing_id : String)
  | generationFailed
  | contractError
  | internal (cause : ApiError)
deriving DecidableEq, Repr

/-- The `offer_data` dictionary `_handle_accept` passes to
`BusinessConstraintAgent.validate_final_offer`. -/
def validationInput (s : Session) : OfferInput :=
  { negotiated_terms := s.current_offer_data
    user_profile := s.initial_user_profile
    market_data := s.initial_market_data }

/-- Handler `_handle_accept`.  The first component of the result is the session
record as persisted after the request (an exception before any
`update_session` leaves the stored record untouched, since `get_session`
returns a copy of the stored data). -/
def handleAccept (env : Env) (s : Session) : Session × Except ApiError MessageResponse :=
  let validation := validate_final_offer (validationInput s)
  if validation.is_approved = false then
    -- Business rejected - move to next round and ask agent to revise
    let s1 := { s with current_round := s.current_round + 1 }
    if s1.max_rounds < s1.current_round then
      let s2 := { s1 with status := .maxRoundsReached }
      (s2, .ok { agent_response := .policyMaxRounds
                 revised_offer := Option.none
                 round := s2.current_round
                 remaining_rounds := 0
                 status := .maxRoundsReached
                 session_id := s2.session_id })
    else
      match env.gen (.policyRejection validation.violations) with
      | .ok offer =>
        let s2 := { s1 with current_offer_data := offer.terms }
        (s2, .ok { agent_response := .policyRevision offer.marketing_message
                   revised_offer := some offer.terms
                   round := s2.current_round
                   remaining_rounds := s2.max_rounds - s2.current_round
                   status := .active
                   session_id := s2.session_id })
      | .fail =>
        -- process_counter_offer raised: no update_session was reached
        (s, .error .generationFailed)
  else
    -- Approved: status "validating" is persisted, then the contract step
    match env.structureOffer with
    | .ok contract_id pdf_reference =>
      let terms := { s.current_offer_data with
                     contract_id := some contract_id
                     pdf_reference := some pdf_reference }
      let s2 := { s with status := .completed, current_offer_data := terms }
      (s2, .ok { agent_response := .contractReady contract_id
                 revised_offer := some terms
                 round := s2.current_round
                 remaining_rounds := 0
                 status := .completed
                 session_id := s2.session_id })
    | .fail =>
      ({ s with status := .error }, .error .contractError)

/-- Handler `_handle_counter_offer`. -/
def handleCounterOffer (env : Env) (s : Session) (m : MessageRequest) :
    Session × Except ApiError MessageResponse :=
  let s1 := { s with current_round := s.current_round + 1 }
  if s1.max_rounds < s1.current_round then
    let s2 := { s1 with status := .maxRoundsReached }
    (s2, .ok { agent_response := .maxRoundsFinal
               revised_offer := some s2.current_offer_data
               round := s2.current_round
               remaining_rounds := 0
               status := .maxRoundsReached
               session_id := s2.session_id })
  else
    match env.gen (.client m.message m.counter_offer) with
    | .ok offer =>
      let s2 := { s1 with current_offer_data := offer.terms }
      (s2, .ok { agent_response := .marketing offer.marketing_message
                 revised_offer := some offer.terms
                 round := s2.current_round
                 remaining_rounds := s2.max_rounds - s2.current_round
                 status := s2.status
                 session_id := s2.session_id })
    | .fail =>
      -- exception in process_counter_offer: surfaced as a 500, the
      -- update_session below the call is never reached
      (s, .error .generationFailed)

/-- Endpoint `send_negotiation_message` on a session that was found in the
database (the not-found branch returns 404 before any of this).  Mirrors
the status gate and the action dispatch; the client history append writes
to the separate history log, not to the session record. -/
def sendNegotiationMessage (env : Env) (s : Session) (m : MessageRequest) :
    Session × Except ApiError MessageResponse :=
  if s.status ≠ .active then
    (s, .error (.statusConflict s.status))
  else
    match m.action with
    | .accept => handleAccept env s
    | .reject =>
      let s2 := { s with status := .rejected }
      (s2, .ok { agent_response := .rejectionAck
                 revised_offer := Option.none
                 round := s2.current_round
                 remaining_rounds := 0
                 status := .rejected
                 session_id := s2.session_id })
    | .counter => handleCounterOffer env s m

/-- Function `NegotiationDatabase.get_active_session_by_user`: first stored session
of the user whose status is `'active'` (dictionary iteration order is
insertion order, modelled by the list order). -/
def get_active_session_by_user (sessions : List Session) (uid : ℤ) : Option Session :=
  sessions.find? (fun t => t.user_id = uid ∧ t.status = .active)

/-- Endpoint `start_negotiation`: if the user already has an active
session it raises `HTTPException(400, …)` naming it — but its body runs
under a blanket `except Exception` that catches that very exception (and
any generation failure) and re-raises it as a 500, so every error leaves
this endpoint wrapped in `ApiError.internal`.  Otherwise it creates the
session, generates the initial offer and persists it. -/
def start_negotiation (env : Env) (sessions : List Session) (sid : String)
    (d : SessionCreate) : List Session × Except ApiError MessageResponse :=
  match get_active_session_by_user sessions d.user_id with
  | some existing =>
    -- the HTTPException(400) is caught by the blanket handler below the
    -- try block and surfaced as HTTPException(500, str(e))
    (sessions, .error (.internal (.conflict existing.session_id)))
  | Option.none =>
    let s := create_session d sid
    -- create_session persists the fresh record before generation runs
    match env.genInitial with
    | .ok offer =>
      let s2 := { s with current_offer_data := offer.terms }
      (sessions ++ [s2],
       .ok { agent_response := .marketing offer.marketing_message
             revised_offer := some offer.terms
             round := s2.current_round
             remaining_rounds := s2.max_rounds - s2.current_round
             status := .active
             session_id := sid })
    | .fail =>
      -- the agent's exception is likewise wrapped into a 500
      (sessions ++ [s], .error (.internal .generationFailed))

/-! ## The history log (negotiation_db.add_history) -/

/-- Schema `NegotiationHistoryCreate`. -/
structure HistoryCreate where
  session_id : String
  round_number : ℤ
  speaker : String
  message : String
  offer_data : Option NegotiatedDict := Option.none
  action : String
deriving DecidableEq, Repr

/-- Schema `NegotiationHistory` (the timestamp is not modelled). -/
structure HistoryEntry where
  id : ℤ
  session_id : String
  round_number : ℤ
  speaker : String
  message : String
  offer_data : Option NegotiatedDict
  action : String
deriving DecidableEq, Repr

/-- Function `NegotiationDatabase.add_history`: builds the entry with
`id = len(history) + 1` and appends it; returns the new log and the
entry. -/
def add_history (log : List HistoryEntry) (d : HistoryCreate) :
    List HistoryEntry × HistoryEntry :=
  let entry : HistoryEntry :=
    { id := (log.length : ℤ) + 1
      session_id := d.session_id
      round_number := d.round_number
      speaker := d.speaker
      message := d.message
      offer_data := d.offer_data
      action := d.action }
  (log ++ [entry], entry)

/-- A session's log after a sequence of `add_history` calls starting from
the empty history file. -/
def buildLog (ds : List HistoryCreate) : List HistoryEntry :=
  ds.foldl (fun log d => (add_history log d).1) []

/-! ## Derived views of `validate_final_offer` used by the theorems

The scalar extraction of the source, factored out per value, and the
per-rule contributions to the three lists, as pure functions of the
scalars.  The decomposition theorems below prove that the sequential
accumulator threading of `validate_final_offer` equals the concatenation
of these segments in rule order. -/

def discountOf (i : OfferInput) : ℚ := i.negotiated_terms.discount_amount_mad.getD 0

def marketAvgOf (i : OfferInput) : ℚ := i.market_data.avg

def offerPriceOf (i : OfferInput) : ℚ := i.negotiated_terms.offer_price_mad.getD 0

def tradeInYearOf (i : OfferInput) : PyVal :=
  tradeInYearLookup i.negotiated_terms i.user_profile

def riskOf (i : OfferInput) : String := pyLower (i.user_profile.risk_level.getD "")

def paymentOf (i : OfferInput) : String := pyLower (i.negotiated_terms.payment_method.getD "")

/-- The `discount_percentage` of RULE 1. -/
def marginPct (i : OfferInput) : ℚ := discountOf i / marketAvgOf i * 100

/-- Violations contributed by RULE 1. -/
def rule1V (d m : ℚ) : List Violation :=
  if m ≠ 0 ∧ 0 < m then
    (if 15 < d / m * 100 then [.marginExceeded (d / m * 100)] else [])
  else []

/-- Audit lines contributed by RULE 1. -/
def rule1A (d m : ℚ) : List AuditLine :=
  if m ≠ 0 ∧ 0 < m then
    if 15 < d / m * 100 then [.marginCheck d m (d / m * 100), .marginViolation (d / m * 100)]
    else [.marginCheck d m (d / m * 100), .marginPass (d / m * 100)]
  else [.marginWarning]

/-- Warnings contributed by RULE 1. -/
def rule1W (_d m : ℚ) : List Warning :=
  if m ≠ 0 ∧ 0 < m then [] else [.marketMissing]

/-- Violations contributed by RULE 2. -/
def rule2V (y : PyVal) : List Violation :=
  if y.truthy then
    match y.toIntOpt with
    | some n => if n < 2010 then [.tradeInTooOld n] else if 2026 < n then [.tradeInFuture n] else []
    | Option.none => []
  else []

/-- Audit lines contributed by RULE 2. -/
def rule2A (y : PyVal) : List AuditLine :=
  if y.truthy then
    match y.toIntOpt with
    | some n =>
      if n < 2010 then [.tradeInCheck n, .tradeInTooOld n]
      else if 2026 < n then [.tradeInCheck n, .tradeInFuture n]
      else [.tradeInCheck n, .tradeInPass n]
    | Option.none => [.tradeInParseWarning y]
  else [.tradeInInfo]

/-- Warnings contributed by RULE 2. -/
def rule2W (y : PyVal) : List Warning :=
  if y.truthy then
    match y.toIntOpt with
    | some _ => []
    | Option.none => [.tradeInYearFormat y]
  else []

/-- Violations contributed by RULE 3. -/
def rule3V (r p : String) : List Violation :=
  if r = "high" ∨ r = "élevé" then
    (if p ∈ ["financing", "financement", "credit", "crédit"] then [.highRiskFinancing] else [])
  else []

/-- Audit lines contributed by RULE 3. -/
def rule3A (r p : String) : List AuditLine :=
  if r = "high" ∨ r = "élevé" then
    if p ∈ ["financing", "financement", "credit", "crédit"] then
      [.riskCheckHigh r, .riskViolation p]
    else [.riskCheckHigh r, .riskPass p]
  else [.riskPassLow r]

/-- Audit lines contributed by RULE 4 (nothing unless `0 < price`). -/
def rule4A (price : ℚ) : List AuditLine :=
  if 0 < price then
    if 10000 ≤ price ∧ price ≤ 10000000 then [.priceRangePass price]
    else [.priceRangeWarning price]
  else []

/-- Warnings contributed by RULE 4. -/
def rule4W (price : ℚ) : List Warning :=
  if 0 < price then
    (if 10000 ≤ price ∧ price ≤ 10000000 then [] else [.priceUnusual price])
  else []

/-- The full violations list, in rule order. -/
def allViolations (i : OfferInput) : List Violation :=
  rule1V (discountOf i) (marketAvgOf i) ++ rule2V (tradeInYearOf i) ++
    rule3V (riskOf i) (paymentOf i)

/-- The full warnings list, in rule order. -/
def allWarnings (i : OfferInput) : List Warning :=
  rule1W (discountOf i) (marketAvgOf i) ++ rule2W (tradeInYearOf i) ++ rule4W (offerPriceOf i)

/-- The summary audit lines appended after the four rules. -/
def summaryAudit (i : OfferInput) : List AuditLine :=
  (if (allViolations i).length = 0 then [.finalApproved]
   else [.finalRejected (allViolations i).length]) ++
  (if (allWarnings i).isEmpty then [] else [.warningsSummary (allWarnings i)])

/-- Is this audit line one of the two RULE 4 (price sanity) lines? -/
def AuditLine.isPriceLine : AuditLine → Bool
  | .priceRangePass _ => true
  | .priceRangeWarning _ => true
  | _ => false

/-- The same input with only the discount amount replaced. -/
def setDiscount (i : OfferInput) (d : ℚ) : OfferInput :=
  { i with negotiated_terms := { i.negotiated_terms with discount_amount_mad := some d } }

/-- The same input with only the offer price replaced. -/
def setOfferPrice (i : OfferInput) (p : ℚ) : OfferInput :=
  { i with negotiated_terms := { i.negotiated_terms with offer_price_mad := some p } }

/-! ## Reachable sessions

Sessions as the negotiation surface creates and evolves them: created by
`create_session` (with the data model's positive `max_rounds`, §3 of the
design document) and stepped by any number of `send_negotiation_message`
requests under arbitrary external outcomes. -/

inductive Reachable : Session → Prop where
  | created (d : SessionCreate) (sid : String) (h : 1 ≤ d.max_rounds) :
      Reachable (create_session d sid)
  | step (env : Env) (m : MessageRequest) {s : Session} (hs : Reachable s) :
      Reachable (sendNegotiationMessage env s m).1

/-- The inductive invariant of the round counter. -/
def SessionInv (s : Session) : Prop :=
  1 ≤ s.max_rounds ∧ (s.status = .active → s.current_round ≤ s.max_rounds) ∧
    s.current_round ≤ s.max_rounds + 1

/-! ## Concrete inputs used by witnesses and counterexamples -/

/-- High-risk user paying by `Leasing`: not a cash-equivalent method, yet
not in the financing/credit list the source checks. -/
def leasingHighRiskInput : OfferInput :=
  { negotiated_terms := { offer_price_mad := some 150000, discount_amount_mad := some 0,
                          payment_method := some "Leasing" }
    user_profile := { risk_level := some "High" }
    market_data := { average_price := some 170000 } }

/-- An input whose offer price is absent (read as `0`). -/
def zeroPriceInput : OfferInput :=
  { negotiated_terms := { discount_amount_mad := some 5000, payment_method := some "cash" }
    user_profile := { risk_level := some "low" }
    market_data := {} }

/-- An input with no market reference at all. -/
def noMarketInput : OfferInput :=
  { negotiated_terms := { offer_price_mad := some 180000, discount_amount_mad := some 99999,
                          payment_method := some "cash" }
    user_profile := { risk_level := some "low" } }

/-- Margin-witness input: discount 20 on market reference 100 is 20%. -/
def bigDiscountInput : OfferInput :=
  { negotiated_terms := { offer_price_mad := some 150000, discount_amount_mad := some 20,
                          payment_method := some "cash" }
    user_profile := { risk_level := some "low" }
    market_data := { average_price := some 100 } }

/-- An environment in which every external call fails. -/
def envFail : Env :=
  { gen := fun _ => .fail, genInitial := .fail, structureOffer := .fail }

/-- A fixed generated offer and an environment that always returns it. -/
def stockOffer : GeneratedOffer :=
  { terms := { offer_price_mad := some 140000, discount_amount_mad := some 10000,
               payment_method := some "cash" }
    marketing_message := "offre revisee" }

def envOk : Env :=
  { gen := fun _ => .ok stockOffer, genInitial := .ok stockOffer,
    structureOffer := .ok "CTR-1" "PDF-1" }

/-- A stored active session for user 1 (as `start_negotiation` would find
it). -/
def activeSession1 : Session :=
  { session_id := "NEG-1", user_id := 1, status := .active, current_round := 1,
    max_rounds := 5, initial_user_profile := {}, initial_market_data := {},
    current_offer_data := {} }

/-- A session whose rounds are exhausted. -/
def maxedSession : Session :=
  { session_id := "NEG-2", user_id := 2, status := .maxRoundsReached, current_round := 3,
    max_rounds := 2, initial_user_profile := {}, initial_market_data := {},
    current_offer_data := { offer_price_mad := some 150000 } }

/-- An active session whose current offer fails policy validation
(high-risk user, financing payment). -/
def failingOfferSession : Session :=
  { session_id := "NEG-3", user_id := 3, status := .active, current_round := 5,
    max_rounds := 5, initial_user_profile := { risk_level := some "high" },
    initial_market_data := {},
    current_offer_data := { payment_method := some "financing" } }

/-- The same failing-offer session with rounds remaining. -/
def failingOfferSessionEarly : Session :=
  { failingOfferSession with current_round := 2 }

/-- An ordinary active mid-negotiation session. -/
def midSession : Session :=
  { session_id := "NEG-4", user_id := 4, status := .active, current_round := 2,
    max_rounds := 5, initial_user_profile := {}, initial_market_data := {},
    current_offer_data := { offer_price_mad := some 160000 } }

/-- A counter message and an accept message. -/
def counterMsg : MessageRequest :=
  { message := "je propose moins", counter_offer := some { desired_price := some 140000 },
    action := .counter }

def acceptMsg : MessageRequest := { message := "oui", action := .accept }

/-- The request data used by the start-conflict scenarios. -/
def startReq1 : SessionCreate :=
  { user_id := 1, initial_user_profile := {}, initial_market_data := {}, max_rounds := 5 }

def createReq : SessionCreate :=
  { user_id := 7, initial_user_profile := {}, initial_market_data := {}, max_rounds := 5 }

/-! ## Decomposition of `validate_final_offer` into rule segments -/

theorem rule1Step_eq (d m : ℚ) (acc : ValAcc) :
    rule1Step d m acc =
      ⟨acc.violations ++ rule1V d m, acc.audit_trail ++ rule1A d m,
       acc.warnings ++ rule1W d m⟩ := by
  unfold rule1Step rule1V rule1A rule1W
  split_ifs <;> simp_all

theorem rule2Step_eq (y : PyVal) (acc : ValAcc) :
    rule2Step y acc =
      ⟨acc.violations ++ rule2V y, acc.audit_trail ++ rule2A y,
       acc.warnings ++ rule2W y⟩ := by
  unfold rule2Step rule2V rule2A rule2W
  rcases hy : y.toIntOpt with _ | n <;> simp only [hy] <;> split_ifs <;> simp_all

theorem rule3Step_eq (r p : String) (acc : ValAcc) :
    rule3Step r p acc =
      ⟨acc.violations ++ rule3V r p, acc.audit_trail ++ rule3A r p, acc.warnings⟩ := by
  unfold rule3Step rule3V rule3A
  split_ifs <;> simp_all

theorem rule4Step_eq (price : ℚ) (acc : ValAcc) :
    rule4Step price acc =
      ⟨acc.violations, acc.audit_trail ++ rule4A price, acc.warnings ++ rule4W price⟩ := by
  unfold rule4Step rule4A rule4W
  split_ifs <;> simp_all

theorem validate_violations (i : OfferInput) :
    (validate_final_offer i).violations = allViolations i := by
  unfold validate_final_offer
  simp only [rule1Step_eq, rule2Step_eq, rule3Step_eq, rule4Step_eq]
  simp [finalStep, allViolations, discountOf, marketAvgOf, tradeInYearOf, riskOf, paymentOf]

theorem validate_audit (i : OfferInput) :
    (validate_final_offer i).audit_trail =
      rule1A (discountOf i) (marketAvgOf i) ++ rule2A (tradeInYearOf i) ++
        rule3A (riskOf i) (paymentOf i) ++ rule4A (offerPriceOf i) ++ summaryAudit i := by
  unfold validate_final_offer
  simp only [rule1Step_eq, rule2Step_eq, rule3Step_eq, rule4Step_eq]
  simp [finalStep, summaryAudit, allViolations, allWarnings, discountOf,
    marketAvgOf, tradeInYearOf, riskOf, paymentOf, offerPriceOf]

theorem validate_is_approved (i : OfferInput) :
    (validate_final_offer i).is_approved = true ↔
      (validate_final_offer i).violations = [] := by
  unfold validate_final_offer
  simp only [rule1Step_eq, rule2Step_eq, rule3Step_eq, rule4Step_eq]
  simp [finalStep, List.length_eq_zero]

theorem marginExceeded_not_mem_rule2V (q : ℚ) (y : PyVal) :
    Violation.marginExceeded q ∉ rule2V y := by
  unfold rule2V
  rcases hy : y.toIntOpt with _ | n <;> simp only [hy] <;> split_ifs <;> simp

theorem marginExceeded_not_mem_rule3V (q : ℚ) (r p : String) :
    Violation.marginExceeded q ∉ rule3V r p := by
  unfold rule3V
  split_ifs <;> simp

theorem highRisk_not_mem_rule1V (d m : ℚ) :
    Violation.highRiskFinancing ∉ rule1V d m := by
  unfold rule1V
  split_ifs <;> simp

theorem highRisk_not_mem_rule2V (y : PyVal) :
    Violation.highRiskFinancing ∉ rule2V y := by
  unfold rule2V
  rcases hy : y.toIntOpt with _ | n <;> simp only [hy] <;> split_ifs <;> simp

theorem highRisk_mem_rule3V_iff (r p : String) :
    Violation.highRiskFinancing ∈ rule3V r p ↔
      ((r = "high" ∨ r = "élevé") ∧
        p ∈ ["financing", "financement", "credit", "crédit"]) := by
  unfold rule3V
  split_ifs <;> simp_all

/-! ## Claim theorems: the PolicyEngine -/

/-- C1.  When the market reference resolves to zero/absent, RULE 1
produces no violation (a warning audit line only); the discount value has
no effect at all on the violations list, so a discount alone can never
make `is_approved` false: if no other rule records a violation, the offer
is approved. -/
theorem margin_missing_market_tolerance (i : OfferInput) (d : ℚ)
    (h : marketAvgOf i = 0) :
    (∀ q : ℚ, Violation.marginExceeded q ∉ (validate_final_offer i).violations) ∧
    AuditLine.marginWarning ∈ (validate_final_offer i).audit_trail ∧
    (validate_final_offer (setDiscount i d)).violations = (validate_final_offer i).violations ∧
    ((validate_final_offer i).violations = [] → (validate_final_offer i).is_approved = true) := by
  refine ⟨?_, ?_, ?_, ?_⟩
  · intro q hq
    rw [validate_violations] at hq
    simp only [allViolations, List.mem_append] at hq
    rcases hq with (hq | hq) | hq
    · simp [rule1V, h] at hq
    · exact marginExceeded_not_mem_rule2V q _ hq
    · exact marginExceeded_not_mem_rule3V q _ _ hq
  · rw [validate_audit]
    simp [rule1A, h]
  · have hm : marketAvgOf (setDiscount i d) = 0 := h
    rw [validate_violations, validate_violations]
    simp only [allViolations]
    rw [show rule1V (discountOf (setDiscount i d)) (marketAvgOf (setDiscount i d)) = []
          from by simp [rule1V, hm],
        show rule1V (discountOf i) (marketAvgOf i) = [] from by simp [rule1V, h]]
    rfl
  · intro hnil
    exact (validate_is_approved i).mpr hnil

/-- C1 witness: on a concrete input with no market data and a huge
discount, the margin rule yields no violation and the offer is
approved. -/
theorem margin_missing_market_tolerance_witness :
    marketAvgOf noMarketInput = 0 ∧
    (∀ q : ℚ, Violation.marginExceeded q ∉ (validate_final_offer noMarketInput).violations) ∧
    AuditLine.marginWarning ∈ (validate_final_offer noMarketInput).audit_trail ∧
    (validate_final_offer noMarketInput).is_approved = true := by
  have h : marketAvgOf noMarketInput = 0 := by decide
  have hmain := margin_missing_market_tolerance noMarketInput 0 h
  exact ⟨h, hmain.1, hmain.2.1, hmain.2.2.2 (by decide)⟩

/-- C7.  With a positive market reference, a discount percentage strictly
above 15 is a violation and forces rejection; a percentage at or below 15
records a pass line, and the margin rule contributes no violation. -/
theorem margin_rule_positive_market (i : OfferInput) (h : 0 < marketAvgOf i) :
    (15 < marginPct i →
      (validate_final_offer i).is_approved = false ∧
      Violation.marginExceeded (marginPct i) ∈ (validate_final_offer i).violations) ∧
    (marginPct i ≤ 15 →
      AuditLine.marginPass (marginPct i) ∈ (validate_final_offer i).audit_trail ∧
      ∀ q : ℚ, Violation.marginExceeded q ∉ (validate_final_offer i).violations) := by
  constructor
  · intro h15
    constructor
    · rw [Bool.eq_false_iff, Ne, validate_is_approved, validate_violations]
      simp only [allViolations, rule1V, marginPct] at h15 ⊢
      simp [h.ne', h, h15]
    · rw [validate_violations]
      simp only [allViolations, rule1V, marginPct] at h15 ⊢
      simp [h.ne', h, h15]
  · intro hle
    constructor
    · rw [validate_audit]
      simp only [rule1A, marginPct] at hle ⊢
      simp [h.ne', h, not_lt.mpr hle]
    · intro q hq
      rw [validate_violations] at hq
      simp only [allViolations, List.mem_append] at hq
      rcases hq with (hq | hq) | hq
      · simp only [rule1V, marginPct] at hq hle
        simp [h.ne', h, not_lt.mpr hle] at hq
      · exact marginExceeded_not_mem_rule2V q _ hq
      · exact marginExceeded_not_mem_rule3V q _ _ hq

/-- C7 witness: discount 20 against market reference 100 is a 20% margin
and is rejected with a margin violation. -/
theorem margin_rule_positive_market_witness :
    0 < marketAvgOf bigDiscountInput ∧ 15 < marginPct bigDiscountInput ∧
    (validate_final_offer bigDiscountInput).is_approved = false ∧
    Violation.marginExceeded (marginPct bigDiscountInput) ∈
      (validate_final_offer bigDiscountInput).violations := by
  have h : 0 < marketAvgOf bigDiscountInput := by decide
  have h15 : 15 < marginPct bigDiscountInput := by
    norm_num [marginPct, discountOf, marketAvgOf, bigDiscountInput, MarketData.avg]
  have hmain := (margin_rule_positive_market bigDiscountInput h).1 h15
  exact ⟨h, h15, hmain.1, hmain.2⟩

/-- C6 counterexample: a high-risk user paying by `Leasing` — a method
that is not cash-equivalent — passes validation with no violation, so it
is not the case that every non-cash-equivalent method is rejected for
high-risk users. -/
theorem risk_rule_leasing_counterexample :
    riskOf leasingHighRiskInput = "high" ∧
    paymentOf leasingHighRiskInput = "leasing" ∧
    (validate_final_offer leasingHighRiskInput).is_approved = true ∧
    (validate_final_offer leasingHighRiskInput).violations = [] := by
  refine ⟨by decide, by decide, ?_⟩
  norm_num [validate_final_offer, leasingHighRiskInput, MarketData.avg, tradeInYearLookup,
    pyLower, pyLowerChar, PyVal.truthy, TradeInInfo.truthy, PyVal.toIntOpt,
    rule1Step, rule2Step, rule3Step, rule4Step, finalStep]
  decide

/-- C6 as amended: the risk rule records the violation exactly when the
lower-cased risk level is `high`/`élevé` and the lower-cased payment
method is one of the four financing/credit spellings the source lists
(leasing and any other method pass); whenever that violation is present
the offer is rejected. -/
theorem risk_payment_rule (i : OfferInput) :
    (Violation.highRiskFinancing ∈ (validate_final_offer i).violations ↔
      ((riskOf i = "high" ∨ riskOf i = "élevé") ∧
        paymentOf i ∈ ["financing", "financement", "credit", "crédit"])) ∧
    (Violation.highRiskFinancing ∈ (validate_final_offer i).violations →
      (validate_final_offer i).is_approved = false) := by
  constructor
  · rw [validate_violations]
    simp [allViolations, List.mem_append, highRisk_not_mem_rule1V, highRisk_not_mem_rule2V,
      highRisk_mem_rule3V_iff]
  · intro hmem
    rw [Bool.eq_false_iff, Ne, validate_is_approved]
    exact fun hnil => List.ne_nil_of_mem hmem hnil

/-- C9 counterexample: on an input whose `offer_price_mad` is absent
(read as 0), the price-sanity rule appends no audit line at all — the
audit trail contains no price line, refuting "each of the four rules
appends at least one audit line for every input". -/
theorem price_rule_missing_audit_counterexample :
    offerPriceOf zeroPriceInput = 0 ∧
    (validate_final_offer zeroPriceInput).audit_trail.filter (fun a => a.isPriceLine) = [] ∧
    (validate_final_offer zeroPriceInput).audit_trail =
      [.marginWarning, .tradeInInfo, .riskPassLow "low", .finalApproved,
       .warningsSummary [.marketMissing]] := by
  decide

/-- C9 as amended: the audit trail is the concatenation, in fixed rule
order, of the four rule segments and the summary; the margin, trade-in
and risk rules each contribute at least one line on every input, while
the price-sanity rule contributes a line exactly when the offer price is
positive — and it never affects the violations list (changing the price
leaves the violations unchanged). -/
theorem audit_trail_structure (i : OfferInput) (p : ℚ) :
    (validate_final_offer i).audit_trail =
      rule1A (discountOf i) (marketAvgOf i) ++ (rule2A (tradeInYearOf i) ++
        (rule3A (riskOf i) (paymentOf i) ++ (rule4A (offerPriceOf i) ++ summaryAudit i))) ∧
    rule1A (discountOf i) (marketAvgOf i) ≠ [] ∧
    rule2A (tradeInYearOf i) ≠ [] ∧
    rule3A (riskOf i) (paymentOf i) ≠ [] ∧
    (rule4A (offerPriceOf i) ≠ [] ↔ 0 < offerPriceOf i) ∧
    (validate_final_offer (setOfferPrice i p)).violations =
      (validate_final_offer i).violations := by
  refine ⟨?_, ?_, ?_, ?_, ?_, ?_⟩
  · rw [validate_audit]
    simp [List.append_assoc]
  · unfold rule1A
    split_ifs <;> simp
  · unfold rule2A
    rcases hy : (tradeInYearOf i).toIntOpt with _ | n <;> simp only [hy] <;>
      split_ifs <;> simp
  · unfold rule3A
    split_ifs <;> simp
  · unfold rule4A
    split_ifs <;> simp_all
  · rw [validate_violations, validate_violations]
    simp [allViolations, setOfferPrice, discountOf, marketAvgOf, tradeInYearOf,
      riskOf, paymentOf, tradeInYearLookup]

/-! ## Claim theorems: the session state machine -/

theorem create_session_inv (d : SessionCreate) (sid : String) (h : 1 ≤ d.max_rounds) :
    SessionInv (create_session d sid) := by
  refine ⟨h, ?_, ?_⟩ <;> simp [create_session] <;> omega

theorem step_facts (env : Env) (s : Session) (m : MessageRequest) (hinv : SessionInv s) :
    SessionInv (sendNegotiationMessage env s m).1 ∧
    s.current_round ≤ ((sendNegotiationMessage env s m).1).current_round ∧
    ((sendNegotiationMessage env s m).1).max_rounds = s.max_rounds ∧
    (s.status ≠ .active → (sendNegotiationMessage env s m).1 = s) := by
  obtain ⟨h1, h2, h3⟩ := hinv
  unfold sendNegotiationMessage
  by_cases hst : s.status = SessionStatus.active
  · simp only [hst, ne_eq, not_true_eq_false, if_false]
    cases m.action with
    | reject =>
      dsimp only
      refine ⟨⟨h1, ?_, ?_⟩, ?_, ?_, ?_⟩ <;> simp_all
    | counter =>
      unfold handleCounterOffer
      dsimp only
      split_ifs with hmax
      · have hr := h2 hst
        refine ⟨⟨h1, ?_, ?_⟩, ?_, ?_, ?_⟩ <;> simp_all
      · rcases hg : env.gen (GenMessage.client m.message m.counter_offer) with o | _ <;>
          simp only [hg]
        · have hr := h2 hst
          refine ⟨⟨h1, ?_, ?_⟩, ?_, ?_, ?_⟩ <;> simp_all
        · exact ⟨⟨h1, fun _ => h2 hst, h3⟩, le_refl _, by simp, by simp⟩
    | accept =>
      unfold handleAccept
      dsimp only
      split_ifs with happ hmax
      · have hr := h2 hst
        refine ⟨⟨h1, ?_, ?_⟩, ?_, ?_, ?_⟩ <;> simp_all
      · rcases hg : env.gen (GenMessage.policyRejection
            (validate_final_offer (validationInput s)).violations) with o | _ <;>
          simp only [hg]
        · have hr := h2 hst
          refine ⟨⟨h1, ?_, ?_⟩, ?_, ?_, ?_⟩ <;> simp_all
        · exact ⟨⟨h1, fun _ => h2 hst, h3⟩, le_refl _, by simp, by simp⟩
      · rcases env.structureOffer with ⟨cid, pdf⟩ | _ <;> dsimp only
        · refine ⟨⟨h1, ?_, ?_⟩, ?_, ?_, ?_⟩ <;> simp_all
        · refine ⟨⟨h1, ?_, ?_⟩, ?_, ?_, ?_⟩ <;> simp_all
  · rw [if_pos hst]
    exact ⟨⟨h1, h2, h3⟩, le_refl _, rfl, fun _ => rfl⟩

theorem reachable_inv (s : Session) (h : Reachable s) : SessionInv s := by
  induction h with
  | created d sid hd => exact create_session_inv d sid hd
  | step env m hs ih => exact (step_facts env _ m ih).1

/-- C4.  On every reachable session (created with a positive
`max_rounds`, then driven by arbitrary requests and external outcomes)
the round counter never exceeds `max_rounds + 1`; a request never
decreases it; a non-active session is left completely unchanged by any
further message; and a `counter` on an active session whose increment
passes `max_rounds` sets `max_rounds_reached` while keeping the current
offer (no new generation is consulted). -/
theorem round_invariant (s : Session) (hr : Reachable s) :
    s.current_round ≤ s.max_rounds + 1 ∧
    ∀ (env : Env) (m : MessageRequest),
      s.current_round ≤ ((sendNegotiationMessage env s m).1).current_round ∧
      ((sendNegotiationMessage env s m).1).current_round ≤ s.max_rounds + 1 ∧
      (s.status ≠ .active → (sendNegotiationMessage env s m).1 = s) ∧
      (m.action = .counter → s.status = .active → s.max_rounds < s.current_round + 1 →
        ((sendNegotiationMessage env s m).1).status = .maxRoundsReached ∧
        ((sendNegotiationMessage env s m).1).current_offer_data = s.current_offer_data) := by
  have hinv := reachable_inv s hr
  refine ⟨hinv.2.2, fun env m => ?_⟩
  obtain ⟨hI, hmono, hmax, hfroz⟩ := step_facts env s m hinv
  refine ⟨hmono, ?_, hfroz, ?_⟩
  · have := hI.2.2
    omega
  · intro hact hst hover
    rw [sendNegotiationMessage, if_neg (by simp [hst]), hact]
    unfold handleCounterOffer
    dsimp only
    rw [if_pos (by exact hover)]
    exact ⟨rfl, rfl⟩

/-- C4 witness: a freshly created 5-round session satisfies the bound,
and stepping it with a counter keeps the bound. -/
theorem round_invariant_witness :
    (create_session createReq "NEG-7").current_round ≤
      (create_session createReq "NEG-7").max_rounds + 1 ∧
    ((sendNegotiationMessage envFail (create_session createReq "NEG-7") counterMsg).1).current_round ≤
      (create_session createReq "NEG-7").max_rounds + 1 := by
  have h := round_invariant (create_session createReq "NEG-7")
    (Reachable.created createReq "NEG-7" (by decide))
  exact ⟨h.1, (h.2 envFail counterMsg).2.1⟩

/-- C2.  `send_negotiation_message` refuses every message — including an
`accept` — on a session whose status is `max_rounds_reached`: the status
gate raises the 400 status-conflict before any dispatch, so PolicyEngine
never runs, contradicting the documented soft-terminal design (the code's
own max-rounds reply even asks the client whether they accept the final
offer). -/
theorem accept_on_max_rounds_conflict (env : Env) (s : Session) (m : MessageRequest)
    (h : s.status = .maxRoundsReached) (_ha : m.action = .accept) :
    sendNegotiationMessage env s m = (s, .error (.statusConflict .maxRoundsReached)) := by
  unfold sendNegotiationMessage
  rw [if_pos (by simp [h]), h]

/-- C2 witness: the concrete exhausted session rejects a concrete accept
with the status-conflict error. -/
theorem accept_on_max_rounds_conflict_witness :
    maxedSession.status = .maxRoundsReached ∧ acceptMsg.action = .accept ∧
    sendNegotiationMessage envOk maxedSession acceptMsg =
      (maxedSession, .error (.statusConflict .maxRoundsReached)) :=
  ⟨rfl, rfl, accept_on_max_rounds_conflict envOk maxedSession acceptMsg rfl rfl⟩

/-- C3 as amended: when the user already has an active session,
`start_negotiation` fails — it raises the 400 conflict naming that
session, which its own blanket exception handler converts into a 500
internal error wrapping the conflict, so that is what the caller
receives; the stored sessions are unchanged (the stale session is not
expired and no new session is created). -/
theorem start_with_active_conflict (env : Env) (sessions : List Session) (sid : String)
    (d : SessionCreate) (ex : Session)
    (h : get_active_session_by_user sessions d.user_id = some ex) :
    start_negotiation env sessions sid d =
      (sessions, .error (.internal (.conflict ex.session_id))) := by
  unfold start_negotiation
  rw [h]

/-- C3 counterexample: with an active session stored for user 1, a new
start request by user 1 returns an error (the 500-wrapped conflict naming
the existing session) and leaves the stored sessions untouched — the
start does not succeed and nothing is expired, refuting the claimed
auto-expiry. -/
theorem start_conflict_counterexample :
    activeSession1.status = .active ∧ activeSession1.user_id = startReq1.user_id ∧
    start_negotiation envFail [activeSession1] "NEG-9" startReq1 =
      ([activeSession1], .error (.internal (.conflict "NEG-1"))) :=
  ⟨rfl, rfl, rfl⟩

/-- C3 witness for the amended statement. -/
theorem start_with_active_conflict_witness :
    get_active_session_by_user [activeSession1] startReq1.user_id = some activeSession1 ∧
    start_negotiation envOk [activeSession1] "NEG-8" startReq1 =
      ([activeSession1], .error (.internal (.conflict "NEG-1"))) :=
  ⟨rfl, start_with_active_conflict envOk [activeSession1] "NEG-8" startReq1 activeSession1 rfl⟩

/-- C5.  An `accept` on an active session whose current offer fails
PolicyEngine validation does not fail the session: the round is
incremented; beyond `max_rounds` the session becomes
`max_rounds_reached` with its offer unchanged; otherwise the generator is
re-invoked with the synthetic policy-rejection message carrying the
violated rules, the revised offer replaces `current_offer_data`, and the
session stays active. -/
theorem accept_policy_rejected_flow (env : Env) (s : Session) (m : MessageRequest)
    (hst : s.status = .active) (ha : m.action = .accept)
    (hrej : (validate_final_offer (validationInput s)).is_approved = false) :
    (s.max_rounds < s.current_round + 1 →
      (sendNegotiationMessage env s m).1 =
        { s with current_round := s.current_round + 1, status := .maxRoundsReached } ∧
      (sendNegotiationMessage env s m).2 = .ok
        { agent_response := .policyMaxRounds, revised_offer := Option.none,
          round := s.current_round + 1, remaining_rounds := 0,
          status := .maxRoundsReached, session_id := s.session_id }) ∧
    (s.current_round + 1 ≤ s.max_rounds →
      ∀ o : GeneratedOffer,
        env.gen (.policyRejection (validate_final_offer (validationInput s)).violations) = .ok o →
          (sendNegotiationMessage env s m).1 =
            { s with current_round := s.current_round + 1, current_offer_data := o.terms } ∧
          ((sendNegotiationMessage env s m).1).status = .active ∧
          (sendNegotiationMessage env s m).2 = .ok
            { agent_response := .policyRevision o.marketing_message, revised_offer := some o.terms,
              round := s.current_round + 1, remaining_rounds := s.max_rounds - (s.current_round + 1),
              status := .active, session_id := s.session_id }) := by
  unfold sendNegotiationMessage
  rw [if_neg (by simp [hst]), ha]
  dsimp only
  unfold handleAccept
  rw [if_pos (by simp [hrej])]
  dsimp only
  constructor
  · intro hover
    rw [if_pos (by exact hover)]
    exact ⟨rfl, rfl⟩
  · intro hin o hg
    rw [if_neg (by omega)]
    rw [hg]
    exact ⟨rfl, by simp [hst], rfl⟩

/-- C5 witness: both branches at concrete sessions — at the last round
the accept of a policy-rejected offer transitions to
`max_rounds_reached` with the offer unchanged; with rounds remaining it
installs the regenerated offer and stays active. -/
theorem accept_policy_rejected_flow_witness :
    (validate_final_offer (validationInput failingOfferSession)).is_approved = false ∧
    (sendNegotiationMessage envOk failingOfferSession acceptMsg).1 =
      { failingOfferSession with current_round := 6, status := .maxRoundsReached } ∧
    (sendNegotiationMessage envOk failingOfferSessionEarly acceptMsg).1 =
      { failingOfferSessionEarly with
        current_round := 3
        current_offer_data := stockOffer.terms } ∧
    ((sendNegotiationMessage envOk failingOfferSessionEarly acceptMsg).1).status = .active := by
  have hrej : (validate_final_offer (validationInput failingOfferSession)).is_approved = false := by
    decide
  have hrej2 : (validate_final_offer (validationInput failingOfferSessionEarly)).is_approved =
      false := by decide
  have h1 := (accept_policy_rejected_flow envOk failingOfferSession acceptMsg rfl rfl hrej).1
    (by decide)
  have h2 := (accept_policy_rejected_flow envOk failingOfferSessionEarly acceptMsg rfl rfl
    hrej2).2 (by decide) stockOffer rfl
  exact ⟨hrej, h1.1, h2.1, h2.2.1⟩

/-- C8.  A `counter` on an active session within the round bound whose
generation call fails leaves the persisted session record exactly as it
was (no offer write, no round or status change persisted), and the
request surfaces the generation error. -/
theorem counter_gen_failure_no_persist (env : Env) (s : Session) (m : MessageRequest)
    (hst : s.status = .active) (ha : m.action = .counter)
    (hin : s.current_round + 1 ≤ s.max_rounds)
    (hg : env.gen (.client m.message m.counter_offer) = .fail) :
    (sendNegotiationMessage env s m).1 = s ∧
    (sendNegotiationMessage env s m).2 = .error .generationFailed := by
  unfold sendNegotiationMessage
  rw [if_neg (by simp [hst]), ha]
  dsimp only
  unfold handleCounterOffer
  dsimp only
  rw [if_neg (by omega), hg]
  exact ⟨rfl, rfl⟩

/-- C8 witness: a concrete mid-negotiation session with a failing
generator is returned unchanged. -/
theorem counter_gen_failure_no_persist_witness :
    midSession.status = .active ∧ midSession.current_round + 1 ≤ midSession.max_rounds ∧
    (sendNegotiationMessage envFail midSession counterMsg).1 = midSession ∧
    (sendNegotiationMessage envFail midSession counterMsg).2 = .error .generationFailed := by
  have h := counter_gen_failure_no_persist envFail midSession counterMsg rfl rfl
    (by decide) rfl
  exact ⟨rfl, by decide, h.1, h.2⟩

/-! ## Claim theorems: the history log -/

theorem add_history_ids_aux (ds : List HistoryCreate) :
    ∀ log : List HistoryEntry,
      (ds.foldl (fun log d => (add_history log d).1) log).map (fun e => e.id) =
        log.map (fun e => e.id) ++
          (List.range' (log.length + 1) ds.length).map (fun n : ℕ => (n : ℤ)) := by
  induction ds with
  | nil => intro log; simp
  | cons d tl ih =>
    intro log
    rw [List.foldl_cons, ih]
    simp [add_history, List.range'_succ]

/-- C10.  `add_history` appends exactly one entry whose id is the new
length of the log; consequently a log built by successive `add_history`
calls has ids exactly `1, 2, …, n` in insertion order — unique,
consecutive from 1, and strictly increasing. -/
theorem add_history_ids (log : List HistoryEntry) (d : HistoryCreate) (ds : List HistoryCreate) :
    (add_history log d).1 = log ++ [(add_history log d).2] ∧
    ((add_history log d).2).id = (log.length : ℤ) + 1 ∧
    (buildLog ds).map (fun e => e.id) =
      (List.range' 1 ds.length).map (fun n : ℕ => (n : ℤ)) ∧
    List.Pairwise (· < ·) ((buildLog ds).map (fun e => e.id)) := by
  have h3 : (buildLog ds).map (fun e => e.id) =
      (List.range' 1 ds.length).map (fun n : ℕ => (n : ℤ)) := by
    simpa [buildLog] using add_history_ids_aux ds []
  refine ⟨rfl, rfl, h3, ?_⟩
  have hp : List.Pairwise (fun a b : ℤ => a < b)
      ((List.range' 1 ds.length).map (fun n : ℕ => (n : ℤ))) :=
    List.Pairwise.map _ (fun a b hab => by exact_mod_cast hab)
      (List.pairwise_lt_range' 1 ds.length)
  exact h3 ▸ hp

end Omega
